import Mathlib

/-
Verification of the crowdsec bouncer traefik plugin middleware (bouncer.go)
against its natural-language specification.

The shallow embedding below translates the request-handling and cache
synchronisation logic of bouncer.go into pure Lean functions.  External
effects (HTTP round trips, JSON decoding, Go duration parsing) are modelled
as oracle fields of environment structures; the control flow that consumes
their results is translated statement by statement from the source.
-/

namespace CrowdsecBouncer

/-! ## Constants

The cache value constants and the mode constants live in the pkg/cache and
pkg/configuration packages of the repository, which are outside the sources
available here; they are modelled from the specification. -/

/-- Modelled from the spec: pkg/cache is an external collaborator; the spec
reserves a distinguished CacheMiss error value, distinct from any stored
value, on which callers branch explicitly. -/
def CacheMiss : String := "cache miss"

/-- Modelled from the spec: the cache stores one of the values none, banned,
captcha; this is the `none` ("confirmed not banned") value. -/
def NoBannedValue : String := "none"

/-- Modelled from the spec: the `banned` cache value. -/
def BannedValue : String := "banned"

/-- Modelled from the spec: the `captcha` cache value. -/
def CaptchaValue : String := "captcha"

/-- Modelled from the spec: mode constant of pkg/configuration (Disabled). -/
def NoneMode : String := "none"

/-- Modelled from the spec: mode constant of pkg/configuration (LiveLookup). -/
def LiveMode : String := "live"

/-- Modelled from the spec: mode constant of pkg/configuration (Streaming). -/
def StreamMode : String := "stream"

/-- Modelled from the spec: mode constant of pkg/configuration (CentralPoll,
named alone mode in the source). -/
def AloneMode : String := "alone"

/-- Constant cacheTimeoutKey = "updated" from bouncer.go: the reserved
freshness sentinel key. -/
def cacheTimeoutKey : String := "updated"

/-- Constant crowdsecCapiLogin = "v2/watchers/login" from bouncer.go. -/
def crowdsecCapiLogin : String := "v2/watchers/login"

/-! ## Data model (bouncer.go type declarations) -/

/-- Decision body returned from the crowdsec LAPI (bouncer.go `Decision`).
The source field named Type is rendered Type' because Type is a reserved
word in Lean. -/
structure Decision where
  ID : Int
  Origin : String
  Type' : String
  Scope : String
  Value : String
  Duration : String
  Scenario : String
  Simulated : Bool
deriving DecidableEq, Repr

/-- Stream body returned from the crowdsec stream LAPI (bouncer.go `Stream`). -/
structure Stream where
  Deleted : List Decision
  New : List Decision
deriving DecidableEq, Repr

/-- Login body returned from the crowdsec login CAPI (bouncer.go `Login`). -/
structure Login where
  Code : Int
  Token : String
  Expire : String
deriving DecidableEq, Repr

/-! ## Decision cache

Modelled from the spec (pkg/cache is external): a TTL keyed store with
get / set / delete; an expired entry behaves identically to an absent one,
and a miss returns the distinguished CacheMiss error value.  Time is an
explicit integer parameter (seconds); an entry stores its absolute expiry. -/

/-- One cache entry: key, stored value and absolute expiry instant. -/
structure CacheEntry where
  key : String
  value : String
  expiry : Int
deriving DecidableEq, Repr

/-- The cache is a finite association list of entries (most recent first). -/
def Cache := List CacheEntry
deriving DecidableEq, Repr

instance : EmptyCollection Cache := ⟨([] : List CacheEntry)⟩

/-- First entry stored under a key, ignoring expiry. -/
def cacheLookup : Cache → String → Option CacheEntry
  | [], _ => Option.none
  | e :: rest, k => if e.key = k then some e else cacheLookup rest k

/-- Modelled from the spec: get returns the stored value while the entry is
unexpired, and the CacheMiss error otherwise. -/
def cacheGet (c : Cache) (now : Int) (k : String) : Except String String :=
  match cacheLookup c k with
  | some e => if now < e.expiry then Except.ok e.value else Except.error CacheMiss
  | Option.none => Except.error CacheMiss

/-- Modelled from the spec: delete removes the entry stored under a key. -/
def cacheDelete : Cache → String → Cache
  | [], _ => []
  | e :: rest, k => if e.key = k then cacheDelete rest k else e :: cacheDelete rest k

/-- Modelled from the spec: set overwrites the entry under a key with a new
value whose expiry lies ttl seconds after the current instant. -/
def cacheSet (c : Cache) (now : Int) (k v : String) (ttl : Int) : Cache :=
  CacheEntry.mk k v (now + ttl) :: cacheDelete c k

/-! ## Bouncer state and request model -/

/-- The fields of the captcha client read by bouncer.go (pkg/captcha is
external; only these two configuration fields are consulted by the
dispatcher). -/
structure CaptchaClient where
  Valid : Bool
  FallbackRemediation : String
deriving DecidableEq, Repr

/-- The Bouncer configuration fields consumed by the functions modelled
here (subset of the bouncer.go `Bouncer` struct; handler, template, TLS and
header plumbing are omitted as they carry no decision logic). -/
structure Bouncer where
  enabled : Bool
  crowdsecMode : String
  crowdsecScheme : String
  crowdsecHost : String
  updateInterval : Int
  defaultDecisionTimeout : Int
  captchaClient : CaptchaClient
deriving DecidableEq, Repr

/-- Per request data consumed by the dispatcher: the URL path and the
boolean result of captchaClient.CheckCookie for this request (the cookie
check is an external collaborator; its outcome is an oracle). -/
structure Request where
  path : String
  checkCookie : Bool
deriving DecidableEq, Repr

/-- HTTP level outcome of handling one request: pass to the next handler,
write 403, or serve the captcha challenge page. -/
inductive HttpOutcome where
  | next
  | forbidden
  | challenge
deriving DecidableEq, Repr

/-! ## Remediation dispatcher (bouncer.go handleRemediation) -/

/-- Translation of bouncer.go handleRemediation: an invalid captcha client
with fallback remediation "ban" overrides a captcha verdict to banned;
banned writes 403; captcha serves the challenge page unless a valid cookie
is present or the path is the favicon; anything else passes through. -/
def handleRemediation (remoteIP remediation : String) (bouncer : Bouncer) (req : Request) : HttpOutcome :=
  let _ := remoteIP
  let remediation :=
    if remediation = CaptchaValue ∧ bouncer.captchaClient.Valid = false ∧
        bouncer.captchaClient.FallbackRemediation = "ban" then
      BannedValue
    else remediation
  if remediation = BannedValue then HttpOutcome.forbidden
  else if remediation = CaptchaValue then
    if req.checkCookie = false ∧ req.path ≠ "/favicon.ico" then HttpOutcome.challenge
    else HttpOutcome.next
  else HttpOutcome.next

/-! ## LiveLookup path (bouncer.go handleNoStreamCache) -/

/-- Oracle environment for the live (on demand) query: the crowdsecQuery
result for this request, the json.Unmarshal of the body into a decision
array (Option.none models a decode error), and time.ParseDuration composed
with the int64 truncation of Seconds (Option.none models a parse error). -/
structure LiveEnv where
  query : Except String String
  parseDecisions : String → Option (List Decision)
  parseDuration : String → Option Int

/-- Result triple of handleNoStreamCache: the remediation value returned,
the Go error (as an Option of its message head), and the cache after any
writes the call performed. -/
structure NoStreamResult where
  value : String
  err : Option String
  cache : Cache
deriving DecidableEq, Repr

/-- Go zero value of the Decision struct (`var decision Decision`). -/
def zeroDecision : Decision :=
  Decision.mk 0 "" "" "" "" "" "" false

/-- Translation of the selection loop of bouncer.go handleNoStreamCache:
walk the array keeping the current element, stopping at the first decision
whose type is "ban"; without a ban the loop ends on the last element. -/
def selectDecision : Decision → List Decision → Decision
  | acc, [] => acc
  | _, d :: rest => if d.Type' == "ban" then d else selectDecision d rest

/-- Translation of bouncer.go handleNoStreamCache (none or live mode): query
the decision source for the IP; a null or empty body caches the no banned
value (live mode) and returns it with no error; otherwise select a decision,
parse its duration (failure is returned as an error), and in live mode clamp
the duration to the default decision timeout, map the decision type to a
cache value and write it, finally returning the value together with the
deliberate "banned" error signal. -/
def handleNoStreamCache (bouncer : Bouncer) (env : LiveEnv) (c : Cache) (now : Int)
    (remoteIP : String) : NoStreamResult :=
  let value := NoBannedValue
  let isLiveMode := bouncer.crowdsecMode = LiveMode
  match env.query with
  | Except.error e => NoStreamResult.mk value (some e) c
  | Except.ok body =>
    if body = "null" then
      if isLiveMode then
        NoStreamResult.mk value Option.none (cacheSet c now remoteIP value bouncer.defaultDecisionTimeout)
      else NoStreamResult.mk value Option.none c
    else
      match env.parseDecisions body with
      | Option.none => NoStreamResult.mk value (some "handleNoStreamCache:parseBody") c
      | some decisions =>
        if decisions.length = 0 then
          if isLiveMode then
            NoStreamResult.mk value Option.none (cacheSet c now remoteIP value bouncer.defaultDecisionTimeout)
          else NoStreamResult.mk value Option.none c
        else
          let decision := selectDecision zeroDecision decisions
          match env.parseDuration decision.Duration with
          | Option.none => NoStreamResult.mk value (some "handleNoStreamCache:parseDuration") c
          | some durationSecond =>
            if isLiveMode then
              let durationSecond :=
                if bouncer.defaultDecisionTimeout < durationSecond then bouncer.defaultDecisionTimeout
                else durationSecond
              let value :=
                if decision.Type' = "ban" then BannedValue
                else if decision.Type' = "captcha" then CaptchaValue
                else value
              NoStreamResult.mk value (some "handleNoStreamCache:banned")
                (cacheSet c now remoteIP value durationSecond)
            else NoStreamResult.mk value (some "handleNoStreamCache:banned") c

/-! ## Stream refresh cycle (bouncer.go handleStreamCache) -/

/-- Oracle environment for one stream refresh cycle: the crowdsecQuery
result, the json.Unmarshal of the body into a Stream (Option.none models a
decode error), and the duration parser as in LiveEnv. -/
structure StreamEnv where
  query : Except String String
  parseStream : String → Option Stream
  parseDuration : String → Option Int

/-- Result of one refresh cycle: the Go error if any, the cache afterwards,
and whether the cycle reached the network fetch (instrumentation used to
state the single fetch property). -/
structure StreamCacheResult where
  err : Option String
  cache : Cache
  fetched : Bool
deriving DecidableEq, Repr

/-- Cache value computed for a new stream decision (`var value string` plus
the type switch of bouncer.go handleStreamCache): the Go zero string for
any type other than ban and captcha. -/
def streamDecisionValue (t : String) : String :=
  if t = "ban" then BannedValue
  else if t = "captcha" then CaptchaValue
  else ""

/-- Translation of the loop over stream.New in bouncer.go handleStreamCache:
each decision whose duration parses is written to the cache under its Value
with its mapped cache value and its parsed duration as TTL; a duration parse
failure skips the decision. -/
def applyNewDecisions (pd : String → Option Int) (now : Int) : Cache → List Decision → Cache
  | c, [] => c
  | c, d :: rest =>
    match pd d.Duration with
    | some duration => applyNewDecisions pd now (cacheSet c now d.Value (streamDecisionValue d.Type') duration) rest
    | Option.none => applyNewDecisions pd now c rest

/-- Translation of the loop over stream.Deleted in bouncer.go
handleStreamCache: every deleted decision removes its Value from the cache. -/
def applyDeletedDecisions : Cache → List Decision → Cache
  | c, [] => c
  | c, d :: rest => applyDeletedDecisions (cacheDelete c d.Value) rest

/-- Translation of bouncer.go handleStreamCache: a cycle first reads the
freshness sentinel and is a successful no-op when it is present; otherwise
it writes the sentinel with TTL updateInterval - 1 before performing the
network fetch, then decodes the stream and applies all new decisions
followed by all deleted decisions. -/
def handleStreamCache (bouncer : Bouncer) (env : StreamEnv) (c : Cache) (now : Int) : StreamCacheResult :=
  match cacheGet c now cacheTimeoutKey with
  | Except.ok _ => StreamCacheResult.mk Option.none c false
  | Except.error e =>
    if e ≠ CacheMiss then StreamCacheResult.mk (some e) c false
    else
      let c := cacheSet c now cacheTimeoutKey NoBannedValue (bouncer.updateInterval - 1)
      match env.query with
      | Except.error qe => StreamCacheResult.mk (some qe) c true
      | Except.ok body =>
        match env.parseStream body with
        | Option.none => StreamCacheResult.mk (some "handleStreamCache:parsingBody") c true
        | some stream =>
          let c := applyNewDecisions env.parseDuration now c stream.New
          let c := applyDeletedDecisions c stream.Deleted
          StreamCacheResult.mk Option.none c true

/-! ## Request entry point (bouncer.go ServeHTTP) -/

/-- Oracle environment for one request: the ip.GetRemoteIP result, the
trusted client check (clientPoolStrategy.Checker.Contains) result, and the
live query environment used on the none and live mode fallthrough path. -/
structure ServeEnv where
  remoteIP : Except String String
  trusted : Except String Bool
  live : LiveEnv

/-- Result of ServeHTTP: the HTTP outcome, the cache afterwards, and whether
the remediation dispatcher handleRemediation was invoked (instrumentation
used to state the trusted bypass property). -/
structure ServeResult where
  outcome : HttpOutcome
  cache : Cache
  dispatched : Bool
deriving DecidableEq, Repr

/-- Translation of the tail of bouncer.go ServeHTTP reached when no usable
cache entry exists: stream and alone mode gate on the health state (pass
when healthy, 403 when not); the remaining modes run handleNoStreamCache,
discard its error (the `//TODO handle error` line of the source) and
dispatch its returned value. -/
def serveHTTPFallthrough (bouncer : Bouncer) (env : ServeEnv) (req : Request) (c : Cache)
    (now : Int) (isCrowdsecStreamHealthy : Bool) (remoteIP : String) : ServeResult :=
  if bouncer.crowdsecMode = StreamMode ∨ bouncer.crowdsecMode = AloneMode then
    if isCrowdsecStreamHealthy then ServeResult.mk HttpOutcome.next c false
    else ServeResult.mk HttpOutcome.forbidden c false
  else
    let r := handleNoStreamCache bouncer env.live c now remoteIP
    ServeResult.mk (handleRemediation remoteIP r.value bouncer req) r.cache true

/-- Translation of bouncer.go ServeHTTP: a disabled bouncer passes through;
a remote IP extraction or trusted check error writes 403; a trusted client
passes through unconditionally; otherwise outside none mode the cache is
consulted (a non-miss cache error writes 403, a hit is dispatched), and an
unresolved request continues with serveHTTPFallthrough. -/
def serveHTTP (bouncer : Bouncer) (env : ServeEnv) (req : Request) (c : Cache) (now : Int)
    (isCrowdsecStreamHealthy : Bool) : ServeResult :=
  if bouncer.enabled = false then ServeResult.mk HttpOutcome.next c false
  else
    match env.remoteIP with
    | Except.error _ => ServeResult.mk HttpOutcome.forbidden c false
    | Except.ok remoteIP =>
      match env.trusted with
      | Except.error _ => ServeResult.mk HttpOutcome.forbidden c false
      | Except.ok isTrusted =>
        if isTrusted then ServeResult.mk HttpOutcome.next c false
        else if bouncer.crowdsecMode ≠ NoneMode then
          match cacheGet c now remoteIP with
          | Except.error errString =>
            if errString ≠ CacheMiss then ServeResult.mk HttpOutcome.forbidden c false
            else serveHTTPFallthrough bouncer env req c now isCrowdsecStreamHealthy remoteIP
          | Except.ok remediation =>
            ServeResult.mk (handleRemediation remoteIP remediation bouncer req) c true
        else serveHTTPFallthrough bouncer env req c now isCrowdsecStreamHealthy remoteIP

/-! ## Authenticated query with login renewal (bouncer.go crowdsecQuery and
getToken)

The HTTP layer is an oracle indexed by a per process call counter; the
response may also depend on the URL, on whether the call is a POST and on
the auth header value.  Divergence of the mutually recursive Go functions is
made observable through an explicit fuel parameter: an outcome of
Option.none means the computation was still running when the fuel ran out. -/

/-- Shape of one oracle HTTP response (net/http status code and body). -/
structure HTTPResponse where
  StatusCode : Int
  Body : String
deriving DecidableEq, Repr

/-- Mutable state threaded through crowdsecQuery and getToken: the current
auth key (bouncer.crowdsecKey), the process wide health flag, and two
instrumentation counters (HTTP calls made, login exchanges performed). -/
structure QState where
  crowdsecKey : String
  healthy : Bool
  calls : Nat
  logins : Nat
deriving DecidableEq, Repr

/-- Oracle environment for the authenticated query model: the HTTP transport
(call index, url, isPost, auth key) and the json.Unmarshal of a login body. -/
structure QEnv where
  httpDo : Nat → String → Bool → String → HTTPResponse
  parseLogin : String → Option Login

/-- Result of a crowdsecQuery or getToken run: Option.none while the fuel
ran out mid recursion, otherwise the Go return (body or error). -/
structure QResult where
  outcome : Option (Except String String)
  st : QState
deriving Repr

/-- Login URL built by bouncer.go getToken from the bouncer scheme and host. -/
def loginURL (bouncer : Bouncer) : String :=
  bouncer.crowdsecScheme ++ "://" ++ bouncer.crowdsecHost ++ "/" ++ crowdsecCapiLogin

/-- Tail of bouncer.go getToken after its inner crowdsecQuery call returns:
decode the login body (failure marks the health state false), and accept the
token when the code is 200 and the token is nonempty, storing it as the new
crowdsecKey. -/
def getTokenStep (parseLogin : String → Option Login) (r : QResult) : QResult :=
  match r with
  | QResult.mk Option.none st => QResult.mk Option.none st
  | QResult.mk (some (Except.error e)) st => QResult.mk (some (Except.error e)) st
  | QResult.mk (some (Except.ok body)) st =>
    match parseLogin body with
    | Option.none =>
      QResult.mk (some (Except.error "getToken:parsingBody")) { st with healthy := false }
    | some login =>
      if login.Code = 200 ∧ login.Token ≠ "" then
        QResult.mk (some (Except.ok "")) { st with crowdsecKey := login.Token }
      else QResult.mk (some (Except.error "getToken statusCode")) st

/-- Translation of bouncer.go crowdsecQuery: perform the HTTP call; a 401 in
alone mode runs getToken (inlined here as getTokenStep around the recursive
login query, so that the recursion stays structural in the fuel; the
standalone definition getToken below abbreviates exactly that composition)
and, when the token renewal succeeds, retries the original URL once more as
a GET; any other non-200 status is an error; a 200 returns the body.  The
login counter is incremented on each login exchange as instrumentation. -/
def crowdsecQuery (bouncer : Bouncer) (env : QEnv) :
    Nat → QState → String → Bool → QResult
  | 0, st, _, _ => QResult.mk Option.none st
  | fuel + 1, st, stringURL, isPost =>
    let res := env.httpDo st.calls stringURL isPost st.crowdsecKey
    let st := { st with calls := st.calls + 1 }
    if res.StatusCode = 401 ∧ bouncer.crowdsecMode = AloneMode then
      match getTokenStep env.parseLogin
          (crowdsecQuery bouncer env fuel { st with logins := st.logins + 1 }
            (loginURL bouncer) true) with
      | QResult.mk Option.none st2 => QResult.mk Option.none st2
      | QResult.mk (some (Except.error e)) st2 =>
        QResult.mk (some (Except.error ("crowdsecQuery:renewToken " ++ e))) st2
      | QResult.mk (some (Except.ok _)) st2 =>
        crowdsecQuery bouncer env fuel st2 stringURL false
    else if res.StatusCode ≠ 200 then
      QResult.mk (some (Except.error "crowdsecQuery statusCode")) st
    else QResult.mk (some (Except.ok res.Body)) st

/-- Translation of bouncer.go getToken: one login exchange through
crowdsecQuery against the login URL followed by the token acceptance logic
of getTokenStep. -/
def getToken (bouncer : Bouncer) (env : QEnv) (fuel : Nat) (st : QState) : QResult :=
  getTokenStep env.parseLogin
    (crowdsecQuery bouncer env fuel { st with logins := st.logins + 1 } (loginURL bouncer) true)

/-! ## Cache lemmas -/

/-- The empty cache. -/
def emptyCache : Cache := ([] : List CacheEntry)

theorem cacheLookup_delete_self (c : Cache) (k : String) :
    cacheLookup (cacheDelete c k) k = Option.none := by
  induction c with
  | nil => rfl
  | cons e rest ih =>
    by_cases hek : e.key = k <;> simp [cacheDelete, cacheLookup, hek, ih]

theorem cacheLookup_delete_ne (c : Cache) (k k' : String) (h : k' ≠ k) :
    cacheLookup (cacheDelete c k) k' = cacheLookup c k' := by
  induction c with
  | nil => rfl
  | cons e rest ih =>
    simp only [cacheDelete, cacheLookup]
    by_cases hek : e.key = k
    · have hek' : e.key ≠ k' := by rw [hek]; exact fun hh => h hh.symm
      rw [if_pos hek, ih, if_neg hek']
    · rw [if_neg hek]
      simp only [cacheLookup]
      by_cases hek' : e.key = k'
      · rw [if_pos hek', if_pos hek']
      · rw [if_neg hek', if_neg hek', ih]

theorem cacheLookup_set_self (c : Cache) (now : Int) (k v : String) (ttl : Int) :
    cacheLookup (cacheSet c now k v ttl) k = some (CacheEntry.mk k v (now + ttl)) := by
  simp [cacheSet, cacheLookup]

theorem cacheLookup_set_ne (c : Cache) (now : Int) (k v : String) (ttl : Int) (k' : String)
    (h : k' ≠ k) : cacheLookup (cacheSet c now k v ttl) k' = cacheLookup c k' := by
  have : k ≠ k' := fun hh => h hh.symm
  simp [cacheSet, cacheLookup, this, cacheLookup_delete_ne c k k' h]

theorem applyNewDecisions_lookup_ne (pd : String → Option Int) (now : Int)
    (ds : List Decision) (c : Cache) (k : String) (h : ∀ d ∈ ds, d.Value ≠ k) :
    cacheLookup (applyNewDecisions pd now c ds) k = cacheLookup c k := by
  induction ds generalizing c with
  | nil => rfl
  | cons d rest ih =>
    have hd : d.Value ≠ k := h d (by simp)
    have hrest : ∀ e ∈ rest, e.Value ≠ k := fun e he => h e (by simp [he])
    cases hpd : pd d.Duration with
    | none => simp [applyNewDecisions, hpd, ih _ hrest]
    | some dur =>
      simp only [applyNewDecisions, hpd]
      rw [ih _ hrest, cacheLookup_set_ne _ _ _ _ _ _ (Ne.symm hd)]

theorem applyDeletedDecisions_lookup_ne (ds : List Decision) (c : Cache) (k : String)
    (h : ∀ d ∈ ds, d.Value ≠ k) :
    cacheLookup (applyDeletedDecisions c ds) k = cacheLookup c k := by
  induction ds generalizing c with
  | nil => rfl
  | cons d rest ih =>
    have hd : d.Value ≠ k := h d (by simp)
    have hrest : ∀ e ∈ rest, e.Value ≠ k := fun e he => h e (by simp [he])
    simp only [applyDeletedDecisions]
    rw [ih _ hrest, cacheLookup_delete_ne _ _ _ (Ne.symm hd)]

theorem applyDeletedDecisions_lookup_none (ds : List Decision) (c : Cache) (k : String)
    (h : cacheLookup c k = Option.none) :
    cacheLookup (applyDeletedDecisions c ds) k = Option.none := by
  induction ds generalizing c with
  | nil => exact h
  | cons d rest ih =>
    simp only [applyDeletedDecisions]
    apply ih
    by_cases hv : k = d.Value
    · rw [hv]; exact cacheLookup_delete_self c d.Value
    · rw [cacheLookup_delete_ne _ _ _ hv]; exact h

theorem applyDeletedDecisions_lookup_mem (ds : List Decision) (c : Cache) (k : String)
    (h : ∃ d ∈ ds, d.Value = k) :
    cacheLookup (applyDeletedDecisions c ds) k = Option.none := by
  induction ds generalizing c with
  | nil => simp at h
  | cons d rest ih =>
    simp only [applyDeletedDecisions]
    rcases h with ⟨e, he, hev⟩
    rcases List.mem_cons.mp he with rfl | hmem
    · apply applyDeletedDecisions_lookup_none
      rw [← hev]; exact cacheLookup_delete_self c e.Value
    · exact ih _ ⟨e, hmem, hev⟩

/-! ## Claim C6 -/

/-- C6: a captcha verdict dispatched while the challenge provider validity
flag is false and the configured fallback remediation is "ban" is handled
identically to a native banned verdict: HTTP 403 is written and no challenge
page is rendered. -/
theorem handleRemediation_captcha_fallback_ban (bouncer : Bouncer) (req : Request) (ip : String)
    (hv : bouncer.captchaClient.Valid = false)
    (hf : bouncer.captchaClient.FallbackRemediation = "ban") :
    handleRemediation ip CaptchaValue bouncer req = handleRemediation ip BannedValue bouncer req ∧
    handleRemediation ip CaptchaValue bouncer req = HttpOutcome.forbidden := by
  constructor <;> simp [handleRemediation, hv, hf, CaptchaValue, BannedValue]

/-- Closed instance of the C6 theorem at a concrete bouncer and request. -/
theorem handleRemediation_captcha_fallback_ban_wit :
    handleRemediation "4.4.4.4" CaptchaValue
        (Bouncer.mk true LiveMode "http" "h" 60 60 (CaptchaClient.mk false "ban"))
        (Request.mk "/page" false) =
      handleRemediation "4.4.4.4" BannedValue
        (Bouncer.mk true LiveMode "http" "h" 60 60 (CaptchaClient.mk false "ban"))
        (Request.mk "/page" false) ∧
    handleRemediation "4.4.4.4" CaptchaValue
        (Bouncer.mk true LiveMode "http" "h" 60 60 (CaptchaClient.mk false "ban"))
        (Request.mk "/page" false) = HttpOutcome.forbidden :=
  handleRemediation_captcha_fallback_ban
    (Bouncer.mk true LiveMode "http" "h" 60 60 (CaptchaClient.mk false "ban"))
    (Request.mk "/page" false) "4.4.4.4" rfl rfl

/-! ## Claim C7 -/

/-- C7: a request whose resolved client IP is inside the trusted client set
never reaches the remediation dispatcher and is passed to the next handler,
whatever the cache holds for that IP. -/
theorem serveHTTP_trusted_bypass (bouncer : Bouncer) (env : ServeEnv) (req : Request)
    (c : Cache) (now : Int) (healthy : Bool) (ip : String)
    (hip : env.remoteIP = Except.ok ip) (htr : env.trusted = Except.ok true) :
    serveHTTP bouncer env req c now healthy = ServeResult.mk HttpOutcome.next c false := by
  by_cases he : bouncer.enabled = false <;> simp [serveHTTP, he, hip, htr]

/-- Concrete bouncer used by several witnesses (streaming mode, enabled). -/
def bStream : Bouncer := Bouncer.mk true StreamMode "http" "crowdsec" 60 60 (CaptchaClient.mk true "ban")

/-- Concrete live environment whose query fails (never consulted on the
witness paths that use it). -/
def envLiveUnused : LiveEnv :=
  LiveEnv.mk (Except.error "unused") (fun _ => Option.none) (fun _ => Option.none)

/-- Concrete request used by witnesses. -/
def reqW : Request := Request.mk "/index" false

/-- Cache holding a banned verdict for the trusted witness IP, to exercise
the claim that the cached verdict is ignored for trusted clients. -/
def cTrusted : Cache := ([CacheEntry.mk "10.0.0.1" BannedValue 1000] : List CacheEntry)

/-- Closed instance of the C7 theorem: the IP is trusted and the cache holds
a live banned verdict for it, yet the request passes and the dispatcher is
not invoked. -/
theorem serveHTTP_trusted_bypass_wit :
    serveHTTP bStream (ServeEnv.mk (Except.ok "10.0.0.1") (Except.ok true) envLiveUnused)
        reqW cTrusted 0 true = ServeResult.mk HttpOutcome.next cTrusted false :=
  serveHTTP_trusted_bypass bStream
    (ServeEnv.mk (Except.ok "10.0.0.1") (Except.ok true) envLiveUnused)
    reqW cTrusted 0 true "10.0.0.1" rfl rfl

/-! ## Claim C1 -/

/-- C1: in stream or alone mode, an enabled bouncer handling a request whose
IP is not trusted and misses the cache passes the request to the next
handler when the health state is true and writes 403 when it is false. -/
theorem serveHTTP_stream_health_gate (bouncer : Bouncer) (env : ServeEnv) (req : Request)
    (c : Cache) (now : Int) (ip : String)
    (hen : bouncer.enabled = true)
    (hmode : bouncer.crowdsecMode = StreamMode ∨ bouncer.crowdsecMode = AloneMode)
    (hip : env.remoteIP = Except.ok ip)
    (htr : env.trusted = Except.ok false)
    (hmiss : cacheGet c now ip = Except.error CacheMiss) :
    (serveHTTP bouncer env req c now true).outcome = HttpOutcome.next ∧
    (serveHTTP bouncer env req c now false).outcome = HttpOutcome.forbidden := by
  rcases hmode with hm | hm <;>
    simp [serveHTTP, serveHTTPFallthrough, hen, hip, htr, hmiss, hm,
      StreamMode, AloneMode, NoneMode]

/-- Closed instance of the C1 theorem at a concrete streaming bouncer with
an empty cache. -/
theorem serveHTTP_stream_health_gate_wit :
    (serveHTTP bStream (ServeEnv.mk (Except.ok "2.2.2.2") (Except.ok false) envLiveUnused)
        reqW emptyCache 0 true).outcome = HttpOutcome.next ∧
    (serveHTTP bStream (ServeEnv.mk (Except.ok "2.2.2.2") (Except.ok false) envLiveUnused)
        reqW emptyCache 0 false).outcome = HttpOutcome.forbidden :=
  serveHTTP_stream_health_gate bStream
    (ServeEnv.mk (Except.ok "2.2.2.2") (Except.ok false) envLiveUnused)
    reqW emptyCache 0 "2.2.2.2" rfl (Or.inl rfl) rfl rfl rfl

/-! ## Claim C4 -/

/-- C4: within one stream refresh cycle all new decisions are written before
any deleted decision is removed, so a subject value occurring in both lists
ends the cycle in the miss state. -/
theorem handleStreamCache_delete_wins (bouncer : Bouncer) (env : StreamEnv) (c : Cache)
    (now : Int) (v body : String) (s : Stream)
    (hmiss : cacheGet c now cacheTimeoutKey = Except.error CacheMiss)
    (hq : env.query = Except.ok body)
    (hp : env.parseStream body = some s)
    (_hnew : ∃ d ∈ s.New, d.Value = v)
    (hdel : ∃ d ∈ s.Deleted, d.Value = v) :
    cacheGet (handleStreamCache bouncer env c now).cache now v = Except.error CacheMiss := by
  have hfinal : (handleStreamCache bouncer env c now).cache =
      applyDeletedDecisions
        (applyNewDecisions env.parseDuration now
          (cacheSet c now cacheTimeoutKey NoBannedValue (bouncer.updateInterval - 1)) s.New)
        s.Deleted := by
    simp [handleStreamCache, hmiss, hq, hp]
  rw [hfinal]
  have hnone := applyDeletedDecisions_lookup_mem s.Deleted
    (applyNewDecisions env.parseDuration now
      (cacheSet c now cacheTimeoutKey NoBannedValue (bouncer.updateInterval - 1)) s.New)
    v hdel
  simp [cacheGet, hnone]

/-- Stream batch used by the C4 witness: the same subject value appears in
both the new and the deleted list. -/
def sW4 : Stream :=
  Stream.mk [Decision.mk 2 "crowdsec" "ban" "ip" "7.7.7.7" "1h" "" false]
    [Decision.mk 1 "crowdsec" "ban" "ip" "7.7.7.7" "1h" "" false]

/-- Stream environment used by the C4 witness. -/
def envW4 : StreamEnv :=
  StreamEnv.mk (Except.ok "sbody") (fun b => if b = "sbody" then some sW4 else Option.none)
    (fun d => if d = "1h" then some 3600 else Option.none)

/-- Closed instance of the C4 theorem. -/
theorem handleStreamCache_delete_wins_wit :
    cacheGet (handleStreamCache bStream envW4 emptyCache 0).cache 0 "7.7.7.7" =
      Except.error CacheMiss :=
  handleStreamCache_delete_wins bStream envW4 emptyCache 0 "7.7.7.7" "sbody" sW4
    rfl rfl rfl (by decide) (by decide)

/-! ## Claim C5 -/

/-- A refresh cycle that finds the freshness sentinel is a successful no-op:
no error, no cache change, no fetch. -/
theorem handleStreamCache_hit (bouncer : Bouncer) (env : StreamEnv) (c : Cache) (now : Int)
    (w : String) (h : cacheGet c now cacheTimeoutKey = Except.ok w) :
    handleStreamCache bouncer env c now = StreamCacheResult.mk Option.none c false := by
  simp [handleStreamCache, h]

/-- C5: a refresh cycle finding the freshness sentinel present is a
successful no-op performing no fetch; a cycle finding it absent writes the
sentinel with TTL updateInterval - 1 before the network call (the sentinel
entry is present afterwards whatever the fetch returned), so a second cycle
triggered inside that window performs no fetch: the fetch count over the
two ticks is one. -/
theorem handleStreamCache_sentinel_single_fetch (bouncer : Bouncer) (env1 env2 : StreamEnv)
    (c : Cache) (t1 t2 : Int) :
    (∀ (env : StreamEnv) (c' : Cache) (now : Int) (w : String),
        cacheGet c' now cacheTimeoutKey = Except.ok w →
        handleStreamCache bouncer env c' now = StreamCacheResult.mk Option.none c' false) ∧
    (cacheGet c t1 cacheTimeoutKey = Except.error CacheMiss →
      (∀ body s, env1.query = Except.ok body → env1.parseStream body = some s →
        (∀ d ∈ s.New, d.Value ≠ cacheTimeoutKey) ∧ (∀ d ∈ s.Deleted, d.Value ≠ cacheTimeoutKey)) →
      t1 ≤ t2 → t2 < t1 + (bouncer.updateInterval - 1) →
      cacheLookup (handleStreamCache bouncer env1 c t1).cache cacheTimeoutKey =
        some (CacheEntry.mk cacheTimeoutKey NoBannedValue (t1 + (bouncer.updateInterval - 1))) ∧
      (handleStreamCache bouncer env1 c t1).fetched = true ∧
      (handleStreamCache bouncer env2 (handleStreamCache bouncer env1 c t1).cache t2).fetched
        = false) := by
  constructor
  · intro env c' now w h
    exact handleStreamCache_hit bouncer env c' now w h
  · intro hmiss hnk _hle hlt
    have hsent : cacheLookup (handleStreamCache bouncer env1 c t1).cache cacheTimeoutKey =
        some (CacheEntry.mk cacheTimeoutKey NoBannedValue (t1 + (bouncer.updateInterval - 1))) := by
      cases hq : env1.query with
      | error qe =>
        simp [handleStreamCache, hmiss, hq, cacheLookup_set_self]
      | ok body =>
        cases hp : env1.parseStream body with
        | none => simp [handleStreamCache, hmiss, hq, hp, cacheLookup_set_self]
        | some s =>
          have hks := hnk body s hq hp
          simp only [handleStreamCache, hmiss]
          simp only [cacheGet, CacheMiss] at *
          simp [hmiss, hq, hp,
            applyDeletedDecisions_lookup_ne s.Deleted _ _ hks.2,
            applyNewDecisions_lookup_ne env1.parseDuration t1 s.New _ _ hks.1,
            cacheLookup_set_self]
    have hfetch : (handleStreamCache bouncer env1 c t1).fetched = true := by
      cases hq : env1.query with
      | error qe => simp [handleStreamCache, hmiss, hq]
      | ok body =>
        cases hp : env1.parseStream body with
        | none => simp [handleStreamCache, hmiss, hq, hp]
        | some s => simp [handleStreamCache, hmiss, hq, hp]
    have hget2 : cacheGet (handleStreamCache bouncer env1 c t1).cache t2 cacheTimeoutKey =
        Except.ok NoBannedValue := by
      simp [cacheGet, hsent, hlt]
    exact ⟨hsent, hfetch,
      by rw [handleStreamCache_hit bouncer env2 _ t2 NoBannedValue hget2]⟩

/-- Stream environment used by the C5 witness: the fetch itself fails, which
shows the sentinel is written before the network call. -/
def envW5 : StreamEnv :=
  StreamEnv.mk (Except.error "transport") (fun _ => Option.none) (fun _ => Option.none)

/-- Closed instance of the C5 theorem: two ticks at times 0 and 10 inside
the 59 second sentinel window; the first cycle fetches (and fails), the
second performs no fetch. -/
theorem handleStreamCache_sentinel_single_fetch_wit :
    cacheLookup (handleStreamCache bStream envW5 emptyCache 0).cache cacheTimeoutKey =
      some (CacheEntry.mk cacheTimeoutKey NoBannedValue 59) ∧
    (handleStreamCache bStream envW5 emptyCache 0).fetched = true ∧
    (handleStreamCache bStream envW4 (handleStreamCache bStream envW5 emptyCache 0).cache
      10).fetched = false :=
  (handleStreamCache_sentinel_single_fetch bStream envW5 envW4 emptyCache 0 10).2
    rfl (fun body s hq => Except.noConfusion hq) (by decide) (by decide)

/-! ## Claim C10 -/

/-- C10: a stream new decision of a type other than ban and captcha whose
duration parses is still written to the cache under its subject value, with
the Go zero string as stored value; that empty value is none of the three
remediation constants, and the dispatcher passes it through, so the subject
is effectively whitelisted until the TTL expires. -/
theorem stream_unknown_type_whitelists (bouncer : Bouncer) (env : StreamEnv) (c : Cache)
    (now : Int) (d : Decision) (dur : Int) (body : String)
    (hmiss : cacheGet c now cacheTimeoutKey = Except.error CacheMiss)
    (hq : env.query = Except.ok body)
    (hp : env.parseStream body = some (Stream.mk [] [d]))
    (hd : env.parseDuration d.Duration = some dur)
    (hdur : 0 < dur)
    (ht1 : d.Type' ≠ "ban") (ht2 : d.Type' ≠ "captcha") :
    cacheGet (handleStreamCache bouncer env c now).cache now d.Value = Except.ok "" ∧
    ("" : String) ≠ NoBannedValue ∧ ("" : String) ≠ BannedValue ∧
    ("" : String) ≠ CaptchaValue ∧
    (∀ (b2 : Bouncer) (req : Request) (ip : String),
      handleRemediation ip "" b2 req = HttpOutcome.next) := by
  refine ⟨?_, by decide, by decide, by decide, ?_⟩
  · have hval : streamDecisionValue d.Type' = "" := by
      simp [streamDecisionValue, ht1, ht2]
    have hfinal : (handleStreamCache bouncer env c now).cache =
        cacheSet (cacheSet c now cacheTimeoutKey NoBannedValue (bouncer.updateInterval - 1))
          now d.Value "" dur := by
      simp [handleStreamCache, hmiss, hq, hp, applyNewDecisions, applyDeletedDecisions, hd, hval]
    rw [hfinal]
    have := cacheLookup_set_self
      (cacheSet c now cacheTimeoutKey NoBannedValue (bouncer.updateInterval - 1)) now d.Value "" dur
    simp [cacheGet, this]
    omega
  · intro b2 req ip
    simp [handleRemediation, CaptchaValue, BannedValue]

/-- Decision used by the C10 witness: unknown type, parsable duration. -/
def dW10 : Decision := Decision.mk 9 "crowdsec" "throttle" "ip" "9.9.9.9" "1h" "" false

/-- Stream environment used by the C10 witness. -/
def envW10 : StreamEnv :=
  StreamEnv.mk (Except.ok "sbody10")
    (fun b => if b = "sbody10" then some (Stream.mk [] [dW10]) else Option.none)
    (fun d => if d = "1h" then some 3600 else Option.none)

/-- Closed instance of the C10 theorem. -/
theorem stream_unknown_type_whitelists_wit :
    cacheGet (handleStreamCache bStream envW10 emptyCache 0).cache 0 "9.9.9.9" =
      Except.ok "" ∧
    ("" : String) ≠ NoBannedValue ∧ ("" : String) ≠ BannedValue ∧
    ("" : String) ≠ CaptchaValue ∧
    (∀ (b2 : Bouncer) (req : Request) (ip : String),
      handleRemediation ip "" b2 req = HttpOutcome.next) :=
  stream_unknown_type_whitelists bStream envW10 emptyCache 0 dW10 3600 "sbody10"
    rfl rfl rfl rfl (by decide) (by decide) (by decide)

/-! ## Claim C2 -/

/-- Concrete live mode bouncer. -/
def bLive : Bouncer := Bouncer.mk true LiveMode "http" "crowdsec" 60 60 (CaptchaClient.mk true "ban")

/-- Decision of an unknown type with a parsable duration, returned by the
C2 environment. -/
def dOtherC2 : Decision := Decision.mk 10 "crowdsec" "throttle" "ip" "1.2.3.4" "4h" "" false

/-- Live environment for C2: the on demand query returns one decision of an
unknown type whose duration parses to four hours. -/
def envLiveC2 : LiveEnv :=
  LiveEnv.mk (Except.ok "bodyC2")
    (fun b => if b = "bodyC2" then some ([dOtherC2] : List Decision) else Option.none)
    (fun d => if d = "4h" then some 14400 else Option.none)

/-- Serve environment for C2. -/
def envC2 : ServeEnv := ServeEnv.mk (Except.ok "1.2.3.4") (Except.ok false) envLiveC2

/-- C2: evaluation of the code at the failing input.  In live mode, a cache
miss answered with the non-empty decision array [throttle 4h] makes
handleNoStreamCache return its deliberate deny signal (the "banned" error)
with the none remediation value; ServeHTTP discards that error (the line
marked TODO handle error in the source) and passes the request to the next
handler instead of denying it. -/
theorem liveLookup_nonempty_not_denied_eval :
    (handleNoStreamCache bLive envLiveC2 emptyCache 0 "1.2.3.4").err =
      some "handleNoStreamCache:banned" ∧
    (handleNoStreamCache bLive envLiveC2 emptyCache 0 "1.2.3.4").value = NoBannedValue ∧
    (serveHTTP bLive envC2 reqW emptyCache 0 true).outcome = HttpOutcome.next ∧
    (serveHTTP bLive envC2 reqW emptyCache 0 true).dispatched = true :=
  ⟨rfl, rfl, rfl, rfl⟩

/-! ## Claim C9 -/

/-- Ban decision whose duration string does not parse, returned by the C9
environment. -/
def dBanBadC9 : Decision := Decision.mk 11 "crowdsec" "ban" "ip" "5.5.5.5" "4hx" "" false

/-- Live environment for C9: one ban decision whose duration fails to parse. -/
def envLiveC9 : LiveEnv :=
  LiveEnv.mk (Except.ok "bodyC9")
    (fun b => if b = "bodyC9" then some ([dBanBadC9] : List Decision) else Option.none)
    (fun _ => Option.none)

/-- Serve environment for C9. -/
def envC9 : ServeEnv := ServeEnv.mk (Except.ok "5.5.5.5") (Except.ok false) envLiveC9

/-- C9: evaluation of the code at the failing input.  In live mode a
selected decision whose duration fails to parse makes handleNoStreamCache
surface a parseDuration error together with the none value and no cache
write; ServeHTTP discards the error and passes the request to the next
handler, so the request is allowed rather than denied. -/
theorem liveLookup_duration_parse_failure_allowed_eval :
    (handleNoStreamCache bLive envLiveC9 emptyCache 0 "5.5.5.5").err =
      some "handleNoStreamCache:parseDuration" ∧
    (handleNoStreamCache bLive envLiveC9 emptyCache 0 "5.5.5.5").value = NoBannedValue ∧
    (handleNoStreamCache bLive envLiveC9 emptyCache 0 "5.5.5.5").cache = emptyCache ∧
    (serveHTTP bLive envC9 reqW emptyCache 0 true).outcome = HttpOutcome.next :=
  ⟨rfl, rfl, rfl, rfl⟩

/-! ## Claim C8 -/

/-- First decision of the C8 list: captcha type, one hour duration. -/
def d1C8 : Decision := Decision.mk 1 "crowdsec" "captcha" "ip" "3.3.3.3" "1h" "" false

/-- Second decision of the C8 list: unknown type, two hour duration. -/
def d2C8 : Decision := Decision.mk 2 "crowdsec" "throttle" "ip" "3.3.3.3" "2h" "" false

/-- Live environment for C8: the query returns two decisions, none of type
ban. -/
def envLiveC8 : LiveEnv :=
  LiveEnv.mk (Except.ok "bodyC8")
    (fun b => if b = "bodyC8" then some ([d1C8, d2C8] : List Decision) else Option.none)
    (fun d => if d = "1h" then some 3600 else if d = "2h" then some 7200 else Option.none)

/-- C8 counterexample: on a ban-free decision array the selection loop ends
on the last decision, not the first as the claim states; consequently
handleNoStreamCache maps and caches the value of the last decision (none,
from the unknown type) where the claim would require the first (captcha). -/
theorem selectDecision_last_not_first :
    selectDecision zeroDecision ([d1C8, d2C8] : List Decision) = d2C8 ∧
    ([d1C8, d2C8] : List Decision).head? = some d1C8 ∧
    d2C8 ≠ d1C8 ∧
    (handleNoStreamCache bLive envLiveC8 emptyCache 0 "3.3.3.3").value = NoBannedValue ∧
    NoBannedValue ≠ CaptchaValue :=
  ⟨rfl, rfl, by decide, rfl, by decide⟩

/-- C8 amended: on a non-empty decision array the decision used is the first
decision of type ban when one is present, and otherwise the LAST decision in
source order. -/
theorem selectDecision_first_ban_else_last (z a : Decision) (ds : List Decision) :
    selectDecision z (a :: ds) =
      ((a :: ds).find? (fun d => d.Type' == "ban")).getD
        ((a :: ds).getLast (List.cons_ne_nil a ds)) := by
  induction ds generalizing z a with
  | nil =>
    cases hb : a.Type' == "ban" <;>
      simp [selectDecision, List.find?, hb, List.getLast]
  | cons b tl ih =>
    cases hb : a.Type' == "ban" with
    | true =>
      have hfind : (a :: b :: tl).find? (fun d => d.Type' == "ban") = some a :=
        @List.find?_cons_of_pos _ (fun d => d.Type' == "ban") a (b :: tl) hb
      simp [selectDecision, hb, hfind]
    | false =>
      have hsel : selectDecision z (a :: b :: tl) = selectDecision a (b :: tl) := by
        simp [selectDecision, hb]
      have hfind : (a :: b :: tl).find? (fun d => d.Type' == "ban") =
          (b :: tl).find? (fun d => d.Type' == "ban") :=
        @List.find?_cons_of_neg _ (fun d => d.Type' == "ban") a (b :: tl) (by simp [hb])
      have hlast : (a :: b :: tl).getLast (List.cons_ne_nil a (b :: tl)) =
          (b :: tl).getLast (List.cons_ne_nil b tl) :=
        List.getLast_cons (List.cons_ne_nil b tl)
      rw [hsel, ih a b, hfind, hlast]

/-! ## Claim C3 -/

/-- Concrete alone mode bouncer (CentralPoll). -/
def bAlone : Bouncer :=
  Bouncer.mk true AloneMode "https" "api.crowdsec.net" 7200 60 (CaptchaClient.mk true "ban")

/-- Login body accepted by getToken (code 200, nonempty token). -/
def loginOk : Login := Login.mk 200 "tok" ""

/-- Environment in which every GET receives 401 while every login POST
succeeds. -/
def env401 : QEnv :=
  QEnv.mk
    (fun _ _ isPost _ =>
      if isPost then HTTPResponse.mk 200 "lb" else HTTPResponse.mk 401 "")
    (fun b => if b = "lb" then some loginOk else Option.none)

/-- Environment in which the first two GET calls (global call indices 0 and
2, the login POSTs being indices 1 and 3) receive 401 and the third GET
succeeds; login POSTs always succeed. -/
def envTwo401 : QEnv :=
  QEnv.mk
    (fun i _ isPost _ =>
      if isPost then HTTPResponse.mk 200 "lb"
      else if i ≤ 2 then HTTPResponse.mk 401 "" else HTTPResponse.mk 200 "okbody")
    (fun b => if b = "lb" then some loginOk else Option.none)

/-- Environment in which only the very first GET receives 401. -/
def envOne401 : QEnv :=
  QEnv.mk
    (fun i _ isPost _ =>
      if isPost then HTTPResponse.mk 200 "lb"
      else if i = 0 then HTTPResponse.mk 401 "" else HTTPResponse.mk 200 "okbody")
    (fun b => if b = "lb" then some loginOk else Option.none)

/-- Initial query state: configured key, healthy, zero counters. -/
def qst0 : QState := QState.mk "key0" true 0 0

/-- C3 counterexample: when the retried call receives a second 401, the code
performs a SECOND login exchange and retries again instead of failing hard;
with the third attempt succeeding, the whole call completes successfully
after two login exchanges, contradicting the claimed single login exchange,
single retry and hard failure on the second 401. -/
theorem crowdsecQuery_second401_second_login :
    (crowdsecQuery bAlone envTwo401 10 qst0 "u" false).st.logins = 2 ∧
    (crowdsecQuery bAlone envTwo401 10 qst0 "u" false).outcome =
      some (Except.ok "okbody") :=
  ⟨rfl, rfl⟩

/-- One unrolling of crowdsecQuery under env401: a 401 answer triggers a
login exchange (which succeeds and installs the token) followed by a retry
of the original call with the remaining fuel. -/
theorem crowdsecQuery_env401_step (f : Nat) (st : QState) :
    crowdsecQuery bAlone env401 (f + 2) st "u" false =
      crowdsecQuery bAlone env401 (f + 1)
        (QState.mk "tok" st.healthy (st.calls + 1 + 1) (st.logins + 1)) "u" false :=
  rfl

/-- Under persistent 401 answers with successful logins the call never
completes, at any fuel: the retry recursion is unbounded. -/
theorem crowdsecQuery_env401_diverges :
    ∀ (fuel : Nat) (st : QState),
      (crowdsecQuery bAlone env401 fuel st "u" false).outcome = Option.none
  | 0, _ => rfl
  | 1, _ => rfl
  | f + 2, st => by
    rw [crowdsecQuery_env401_step]
    exact crowdsecQuery_env401_diverges (f + 1)
      (QState.mk "tok" st.healthy (st.calls + 1 + 1) (st.logins + 1))

/-- C3 amended: in alone mode every 401 answer triggers a login exchange and
a retry of the original call, and this repeats for every further 401 as long
as logins succeed, without bound (under persistent 401 the call never
completes at any fuel); when the first retry succeeds the call completes
after exactly one login exchange. -/
theorem crowdsecQuery_one_login_per_401_unbounded :
    (∀ (fuel : Nat) (st : QState),
      (crowdsecQuery bAlone env401 fuel st "u" false).outcome = Option.none) ∧
    (crowdsecQuery bAlone envOne401 10 qst0 "u" false).outcome =
      some (Except.ok "okbody") ∧
    (crowdsecQuery bAlone envOne401 10 qst0 "u" false).st.logins = 1 :=
  ⟨crowdsecQuery_env401_diverges, rfl, rfl⟩

end CrowdsecBouncer
